import Mathlib

/-!
Verification development for the `reddit_decider` experimentation client
(`reddit_decider/__init__.py`).

The embedding models the Python module shallowly:

* Python values flowing through context dictionaries, event payloads and
  engine replies are modelled by `PyVal`; Python dictionaries are modelled
  as association lists (`PyDict`) whose lookup (`pyGet`) is
  last-binding-wins, matching the override semantics of Python dict
  literals (`{**a, **b}`), `dict.update` and item assignment.  `deepcopy`
  of such values is the identity on immutable Lean values.
* The external Rust bucketing engine (`rust_decider`) is a black box per
  the design: every embedded operation takes the engine's reply
  (decision, error, context-construction error, ...) as an explicit
  argument instead of re-implementing the engine.
* The event logger's `log(experiment=…, variant=…, span=…, event_type=…,
  inputs=…, **event_fields)` call is modelled by a `LogCall` record; as in
  CPython, passing an explicit keyword that also occurs in the `**`
  mapping raises `TypeError`, which the model returns as an error value.
* Raised Python exceptions are modelled with `Except PyErr`; operations
  that swallow errors and fall back to defaults return plain values.
-/

/-- Python runtime values as they occur in this module: `None`, booleans,
integers (timestamps are carried as integers; no arithmetic is performed
on them), strings and dictionaries. -/
inductive PyVal where
  | none : PyVal
  | bool : Bool → PyVal
  | int : Int → PyVal
  | str : String → PyVal
  | dict : List (String × PyVal) → PyVal

/-- A Python dictionary, as an insertion-ordered association list.  A key
may occur several times; `pyGet` makes the last binding win, which is
exactly the value the corresponding Python `dict` holds for that key. -/
abbrev PyDict : Type := List (String × PyVal)

/-- Dictionary lookup: the value of the last binding of `k`, if any
(later bindings take precedence, as in Python dict construction). -/
def pyGet : PyDict → String → Option PyVal
  | [], _ => Option.none
  | p :: rest, k =>
      (pyGet rest k).elim (if p.1 = k then some p.2 else Option.none) some

/-- Lookup with a default, modelling Python's `d.get(k, default)`. -/
def pyGetD (d : PyDict) (k : String) (v : PyVal) : PyVal :=
  (pyGet d k).getD v

/-- Item assignment `d[k] = v`; also models merging a one-entry dict as in
`{**d, **{k: v}}` (both give the same lookup results). -/
def pyUpdate (d : PyDict) (k : String) (v : PyVal) : PyDict :=
  d ++ [(k, v)]

/-- In-place merge `a.update(b)` (also the dict literal `{**a, **b}`). -/
def pyMerge (a b : PyDict) : PyDict :=
  a ++ b

/-- Python truthiness of a value (`if v:`). -/
def pyTruthy : PyVal → Bool
  | .none => false
  | .bool b => b
  | .int n => n != 0
  | .str s => s != ""
  | .dict d => !d.isEmpty

/-- The value of `d.get(k)` when it is truthy, `none` otherwise: the test
`if d.get(k):` succeeds exactly when this is `some`. -/
def pyGetTruthy (d : PyDict) (k : String) : Option PyVal :=
  match pyGet d k with
  | Option.some v => if pyTruthy v then some v else Option.none
  | Option.none => Option.none

/-- Singleton-or-empty dict used for the conditional inserts of
`to_event_dict` (`if d.get(k): out[k2] = d[k]`). -/
def condEntry (k : String) : Option PyVal → PyDict
  | Option.some v => [(k, v)]
  | Option.none => []

theorem pyGet_append (a b : PyDict) (k : String) :
    pyGet (a ++ b) k = (pyGet b k).elim (pyGet a k) some := by
  induction a with
  | nil =>
    simp only [List.nil_append]
    cases h : pyGet b k <;> simp [pyGet]
  | cons p a ih =>
    change (pyGet (a ++ b) k).elim _ _ = _
    rw [ih]
    cases h : pyGet b k <;> simp [pyGet, h]

theorem pyGet_update (d : PyDict) (k : String) (v : PyVal) (k' : String) :
    pyGet (pyUpdate d k v) k' = if k = k' then some v else pyGet d k' := by
  rw [pyUpdate, pyGet_append]
  by_cases h : k = k'
  · subst h; simp [pyGet]
  · have hk : pyGet [(k, v)] k' = Option.none := by
      simp [pyGet, h]
    rw [hk]
    simp [h]

theorem pyGet_update_self (d : PyDict) (k : String) (v : PyVal) :
    pyGet (pyUpdate d k v) k = some v := by
  simp [pyGet_update]

theorem pyGet_update_ne (d : PyDict) (k : String) (v : PyVal) (k' : String)
    (h : k ≠ k') : pyGet (pyUpdate d k v) k' = pyGet d k' := by
  simp [pyGet_update, h]

/-- Python exceptions that the modelled code can raise to its caller. -/
inductive PyErr where
  | attributeError : String → PyErr
  | typeError : String → PyErr
  | valueError : String → PyErr
deriving DecidableEq

/-- Drops leading ASCII whitespace from a char list. -/
def dropSpaces : List Char → List Char
  | c :: rest =>
      if c = ' ' || c = '\t' || c = '\n' || c = '\r' then dropSpaces rest else c :: rest
  | [] => []

/-- Strips whitespace on both ends, as `int(str)` does before parsing. -/
def trimChars (l : List Char) : List Char :=
  (dropSpaces (dropSpaces l).reverse).reverse

/-- Accumulates the value of a digit string; `none` on a non-digit. -/
def digitsValGo : List Char → Nat → Option Nat
  | [], acc => some acc
  | c :: cs, acc =>
      if c.isDigit then digitsValGo cs (acc * 10 + (c.toNat - 48)) else Option.none

/-- Value of a non-empty all-digit char list. -/
def digitsVal : List Char → Option Nat
  | [] => Option.none
  | l => digitsValGo l 0

/-- Decimal integer parse modelling Python's `int(str)`: surrounding
whitespace, an optional sign and a non-empty digit string. -/
def pyParseInt (s : String) : Option Int :=
  match trimChars s.data with
  | '-' :: rest => (digitsVal rest).map (fun n => -(n : Int))
  | '+' :: rest => (digitsVal rest).map (fun n => (n : Int))
  | t => (digitsVal t).map (fun n => (n : Int))

/-- Embeds `Decider._cast_to_int`: `int(input)` with the deliberate
lenient default of `1` when the cast raises `ValueError`. -/
def cast_to_int (input : String) : Int :=
  (pyParseInt input).getD 1

/-- Python's `int(v)` on a dynamic value: ints pass through, booleans
coerce, strings parse (`ValueError` on failure), `None` and dicts raise
`TypeError`. -/
def pyIntCast : PyVal → Except PyErr Int
  | .int n => .ok n
  | .bool b => .ok (if b then 1 else 0)
  | .str s =>
      match pyParseInt s with
      | Option.some n => .ok n
      | Option.none => .error (.valueError ("invalid literal for int"))
  | .none => .error (.typeError ("int() argument must not be None"))
  | .dict _ => .error (.typeError ("int() argument must not be a dict"))

/-- Python's `str(v)`.  (The precise repr of a dict is irrelevant to every
claim below; it is abbreviated.) -/
def pyStrCast : PyVal → String
  | .str s => s
  | .int n => toString n
  | .bool b => if b then "True" else "False"
  | .none => "None"
  | .dict _ => "<dict>"

/-- Embeds `DeciderContext.__init__`: the eleven per-request targeting
attributes.  Every field is dynamically typed in Python and defaults to
`None`; `extracted_fields` is the optional open-ended bag. -/
structure DeciderContext where
  user_id : PyVal := .none
  country_code : PyVal := .none
  locale : PyVal := .none
  user_is_employee : PyVal := .none
  logged_in : PyVal := .none
  device_id : PyVal := .none
  oauth_client_id : PyVal := .none
  origin_service : PyVal := .none
  cookie_created_timestamp : PyVal := .none
  loid_created_timestamp : PyVal := .none
  extracted_fields : Option PyDict := Option.none

/-- The extracted-fields bag after `self._extracted_fields or {}`
(`deepcopy` is the identity here). -/
def DeciderContext.ef (ctx : DeciderContext) : PyDict :=
  ctx.extracted_fields.getD []

/-- Embeds `DeciderContext.to_dict`: the flat engine-input context — the
ten canonical attributes, the bag duplicated under `"other_fields"`, and
the bag itself splatted last at top level (`**ef`), so its entries win on
key collisions. -/
def DeciderContext.to_dict (ctx : DeciderContext) : PyDict :=
  [("user_id", ctx.user_id),
   ("country_code", ctx.country_code),
   ("locale", ctx.locale),
   ("user_is_employee", ctx.user_is_employee),
   ("logged_in", ctx.logged_in),
   ("device_id", ctx.device_id),
   ("oauth_client_id", ctx.oauth_client_id),
   ("origin_service", ctx.origin_service),
   ("cookie_created_timestamp", ctx.cookie_created_timestamp),
   ("loid_created_timestamp", ctx.loid_created_timestamp),
   ("other_fields", .dict ctx.ef)]
  ++ ctx.ef

/-- Embeds `DeciderContext.to_event_dict`: the nested telemetry view with
`user`/`app`/`geo`/`request`/`platform` groups (conditional entries model
the truthiness-guarded inserts) and the bag splatted last at top level. -/
def DeciderContext.to_event_dict (ctx : DeciderContext) : PyDict :=
  let user_fields : PyDict :=
    [("id", ctx.user_id),
     ("logged_in", ctx.logged_in),
     ("cookie_created_timestamp", ctx.cookie_created_timestamp),
     ("is_employee", ctx.user_is_employee)]
  let app_fields : PyDict :=
    condEntry ("name") (pyGetTruthy ctx.ef ("app_name"))
    ++ condEntry ("version") (pyGetTruthy ctx.ef ("app_version"))
    ++ condEntry ("build_number") (pyGetTruthy ctx.ef ("build_number"))
    ++ (if pyTruthy ctx.locale then [(("relevant_locale" : String), ctx.locale)] else [])
  let geo_fields : PyDict :=
    if pyTruthy ctx.country_code then [(("country_code" : String), ctx.country_code)] else []
  let request_fields : PyDict :=
    condEntry ("canonical_url") (pyGetTruthy ctx.ef ("canonical_url"))
  let platform_fields : PyDict :=
    if pyTruthy ctx.device_id then [(("device_id" : String), ctx.device_id)] else []
  [("user_id", ctx.user_id),
   ("country_code", ctx.country_code),
   ("locale", ctx.locale),
   ("user_is_employee", ctx.user_is_employee),
   ("logged_in", ctx.logged_in),
   ("device_id", ctx.device_id),
   ("origin_service", ctx.origin_service),
   ("cookie_created_timestamp", ctx.cookie_created_timestamp),
   ("user", .dict user_fields),
   ("app", .dict app_fields),
   ("geo", .dict geo_fields),
   ("request", .dict request_fields),
   ("platform", .dict platform_fields)]
  ++ ctx.ef

/-- The fixed whitelist of bucketing identifiers (`IDENTIFIERS`). -/
def IDENTIFIERS : List String := ["user_id", "device_id", "canonical_url"]

/-- Embeds the flat-map construction of
`Decider._get_ctx_with_set_identifier`: `context_fields =
self._decider_context.to_dict()` followed by the single item assignment
`context_fields[identifier_type] = identifier`.  (The resulting map is
then handed to the black-box `make_ctx`.)  Note that the assignment
targets the fresh dict returned by `to_dict`, never the `DeciderContext`
object itself. -/
def get_ctx_with_set_identifier_fields
    (ctx : DeciderContext) (identifier : String) (identifier_type : String) : PyDict :=
  pyUpdate ctx.to_dict identifier_type (.str identifier)

/-- The parsed form of a Raw Decision Event string: the ten
`"::::"`-delimited fields, in wire order. -/
structure RawEvent where
  event_type : String
  exp_id : String
  name : String
  version : String
  variant : String
  bucketing_value : String
  bucket_val : String
  start_ts : String
  stop_ts : String
  owner : String
deriving DecidableEq

/-- Greedy left-to-right split on the module's fixed `"::::"` delimiter,
with the semantics of Python's `str.split("::::")`: the current field is
accumulated until the next delimiter occurrence; `n` occurrences yield
`n + 1` fields (empty fields kept). -/
def splitSepGo : List Char → List Char → List (List Char)
  | ':' :: ':' :: ':' :: ':' :: rest, acc => acc.reverse :: splitSepGo rest []
  | c :: rest, acc => splitSepGo rest (c :: acc)
  | [], acc => [acc.reverse]

/-- Models `event.split("::::")`. -/
def splitEventFields (s : String) : List String :=
  (splitSepGo s.data []).map (fun cs => String.mk cs)

/-- Embeds the tuple unpacking of `event.split("::::")` in
`_send_expose` / `_send_expose_if_holdout`: succeeds exactly when the
split yields ten fields, otherwise the `ValueError` is caught and the
event is skipped (`none`). -/
def parseRawEvent (event : String) : Option RawEvent :=
  match splitEventFields event with
  | [a, b, c, d, e, f, g, h, i, j] => some ⟨a, b, c, d, e, f, g, h, i, j⟩
  | _ => Option.none

/-- Classification test used by the deferred emission mode: the event
parses and its classification code (first field) is `"2"` (holdout). -/
def isHoldoutEvent (event : String) : Bool :=
  match parseRawEvent event with
  | Option.some re => re.event_type == "2"
  | Option.none => false

/-- Embeds the `ExperimentConfig` dataclass.  `id` is always built with an
`int` cast and `version` with `str`, the remaining fields carry whatever
dynamic value the construction site supplies. -/
structure ExperimentConfig where
  id : Int
  version : String
  name : PyVal
  bucket_val : PyVal
  start_ts : PyVal
  stop_ts : PyVal
  owner : PyVal

/-- The `ExperimentConfig` built inside `_send_expose` (and
`_send_expose_if_holdout`) from a parsed event, using the lenient
`_cast_to_int` for `id` and the timestamps. -/
def expConfigOfEvent (re : RawEvent) : ExperimentConfig :=
  { id := cast_to_int re.exp_id,
    name := .str re.name,
    version := re.version,
    bucket_val := .str re.bucket_val,
    start_ts := .int (cast_to_int re.start_ts),
    stop_ts := .int (cast_to_int re.stop_ts),
    owner := .str re.owner }

/-- The `EventType` enum (only `EXPOSE` exists). -/
inductive EventType where
  | expose : EventType
deriving DecidableEq

/-- One call of `self._event_logger.log(experiment=…, variant=…, span=…,
event_type=…, inputs=event_fields, **event_fields)`.  The `span` argument
is an opaque request-scope object and is not modelled.  `kwargs` records
the splatted `**event_fields`. -/
structure LogCall where
  experiment : ExperimentConfig
  variant : String
  event_type : EventType
  inputs : PyDict
  kwargs : PyDict

/-- The explicit keyword arguments of the `log` call.  A key of the
splatted `**event_fields` mapping that collides with one of these raises
`TypeError: got multiple values for keyword argument` in CPython. -/
def reservedKeys : List String := ["experiment", "variant", "span", "event_type", "inputs"]

/-- Does the dict hold a binding for one of the reserved `log` keywords? -/
def hasReservedKey (d : PyDict) : Bool :=
  d.any (fun p => reservedKeys.contains p.1)

/-- Result of one `self._event_logger.log(...)` call: `TypeError` when the
splatted fields collide with an explicit keyword, the composed record
otherwise. -/
def logExposure (cfg : ExperimentConfig) (variant : String) (event_fields : PyDict) :
    Except PyErr LogCall :=
  if hasReservedKey event_fields then
    .error (.typeError ("log() got multiple values for a keyword argument"))
  else
    .ok { experiment := cfg, variant := variant, event_type := .expose,
          inputs := event_fields, kwargs := event_fields }

/-- Embeds `Decider._send_expose`: parse the event (a malformed event is
logged and skipped), optionally overwrite the bucketing field with the
event's literal bucketing value, then log.  Returns the emitted record,
`none` when the event was skipped. -/
def send_expose (overwrite_identifier : Bool) (event : String) (exposure_fields : PyDict) :
    Except PyErr (Option LogCall) :=
  match parseRawEvent event with
  | Option.none => .ok Option.none
  | Option.some re =>
      let event_fields :=
        if overwrite_identifier then
          pyUpdate exposure_fields re.bucket_val (.str re.bucketing_value)
        else exposure_fields
      match logExposure (expConfigOfEvent re) re.variant event_fields with
      | .error e => .error e
      | .ok rec => .ok (some rec)

/-- Embeds `Decider._send_expose_if_holdout`: identical to `_send_expose`
except that the record is only composed and logged when the event's
classification code is `"2"`. -/
def send_expose_if_holdout (overwrite_identifier : Bool) (event : String)
    (exposure_fields : PyDict) : Except PyErr (Option LogCall) :=
  match parseRawEvent event with
  | Option.none => .ok Option.none
  | Option.some re =>
      if re.event_type = "2" then
        let event_fields :=
          if overwrite_identifier then
            pyUpdate exposure_fields re.bucket_val (.str re.bucketing_value)
          else exposure_fields
        match logExposure (expConfigOfEvent re) re.variant event_fields with
        | .error e => .error e
        | .ok rec => .ok (some rec)
      else .ok Option.none

/-- The `for event in decision.events:` emission loop shared by the read
operations: events are processed in order and an uncaught exception from
the logger call aborts the call. -/
def emitEvents (send : String → PyDict → Except PyErr (Option LogCall))
    (exposure_fields : PyDict) : List String → Except PyErr (List LogCall)
  | [] => .ok []
  | ev :: rest =>
      match send ev exposure_fields with
      | .error e => .error e
      | .ok Option.none => emitEvents send exposure_fields rest
      | .ok (Option.some rec) =>
          match emitEvents send exposure_fields rest with
          | .error e => .error e
          | .ok recs => .ok (rec :: recs)

/-- The record that `_send_expose` (without identifier overwrite) emits
for one event, when the event parses. -/
def recOfEvent (exposure_fields : PyDict) (event : String) : Option LogCall :=
  (parseRawEvent event).map (fun re =>
    { experiment := expConfigOfEvent re, variant := re.variant, event_type := .expose,
      inputs := exposure_fields, kwargs := exposure_fields })

/-- The record that `_send_expose` with `overwrite_identifier=True` emits
for one event, when the event parses: the event's bucketing field is
overwritten with the event's literal bucketing value. -/
def recOfEventOverwrite (exposure_fields : PyDict) (event : String) : Option LogCall :=
  (parseRawEvent event).map (fun re =>
    let ef := pyUpdate exposure_fields re.bucket_val (.str re.bucketing_value)
    { experiment := expConfigOfEvent re, variant := re.variant, event_type := .expose,
      inputs := ef, kwargs := ef })

/-- The engine's reply to `self._internal.choose(...)` on the success
path: the chosen variant (possibly `None`) and the raw event strings. -/
structure Decision where
  variant : Option String
  events : List String
deriving DecidableEq

/-- The two exception types that `get_variant` catches around
`self._internal.choose(...)`. -/
inductive ChooseErr where
  | featureNotFound : String → ChooseErr
  | deciderException : String → ChooseErr
deriving DecidableEq

/-- Embeds `Decider.get_variant`.  `internal` stands for the engine
handle together with its reply: `none` models `self._internal is None`,
`some (.error _)` a caught engine exception (both return `None` and emit
nothing), `some (.ok d)` a decision.  Returns the variant and the emitted
exposure records (one `_send_expose` per event, all classes). -/
def get_variant (ctx : DeciderContext) (internal : Option (Except ChooseErr Decision))
    (exposure_kwargs : PyDict) : Except PyErr (Option String × List LogCall) :=
  match internal with
  | Option.none => .ok (Option.none, [])
  | Option.some (.error _) => .ok (Option.none, [])
  | Option.some (.ok decision) =>
      let event_context_fields := pyMerge ctx.to_event_dict exposure_kwargs
      match emitEvents (send_expose false) event_context_fields decision.events with
      | .error e => .error e
      | .ok recs => .ok (decision.variant, recs)

/-- Embeds `Decider.get_variant_without_expose`: same resolution as
`get_variant` (and no `exposure_kwargs` parameter), but every event goes
through `_send_expose_if_holdout`, so only class-2 events are emitted. -/
def get_variant_without_expose (ctx : DeciderContext)
    (internal : Option (Except ChooseErr Decision)) :
    Except PyErr (Option String × List LogCall) :=
  match internal with
  | Option.none => .ok (Option.none, [])
  | Option.some (.error _) => .ok (Option.none, [])
  | Option.some (.ok decision) =>
      let event_context_fields := ctx.to_event_dict
      match emitEvents (send_expose_if_holdout false) event_context_fields decision.events with
      | .error e => .error e
      | .ok recs => .ok (decision.variant, recs)

/-- The engine's reply object for an identifier-targeted
`decider.choose(...)` call: `err()`, `decision()` and `events()`. -/
structure IdChoice where
  err : Option String
  decision : Option String
  events : List String
deriving DecidableEq

/-- Embeds `Decider.get_variant_for_identifier`.  The black-box
collaborators appear as arguments: `decider_present` models
`self._get_decider()` being non-`None`, `make_ctx_err` the `err()` the
black-box `make_ctx` reports for a given flat context map, and `choice`
the reply of `decider.choose`.  Every guard (whitelist, missing engine,
context error, choice error) returns `None` with no emission; otherwise
each event is emitted through `_send_expose` with
`overwrite_identifier=True`. -/
def get_variant_for_identifier (ctx : DeciderContext) (identifier : String)
    (identifier_type : String) (decider_present : Bool)
    (make_ctx_err : PyDict → Option String) (choice : IdChoice) (exposure_kwargs : PyDict) :
    Except PyErr (Option String × List LogCall) :=
  if ¬ (identifier_type ∈ IDENTIFIERS) then .ok (Option.none, [])
  else if ¬ decider_present then .ok (Option.none, [])
  else if (make_ctx_err (get_ctx_with_set_identifier_fields ctx identifier identifier_type)).isSome
    then .ok (Option.none, [])
  else if choice.err.isSome then .ok (Option.none, [])
  else
    let event_context_fields := pyMerge ctx.to_event_dict exposure_kwargs
    match emitEvents (send_expose true) event_context_fields choice.events with
    | .error e => .error e
    | .ok recs => .ok (choice.decision, recs)

/-- Embeds `Decider.get_variant_for_identifier_without_expose`: the same
guards, no `exposure_kwargs`, and the events go through
`_send_expose_if_holdout` with `overwrite_identifier=True`. -/
def get_variant_for_identifier_without_expose (ctx : DeciderContext) (identifier : String)
    (identifier_type : String) (decider_present : Bool)
    (make_ctx_err : PyDict → Option String) (choice : IdChoice) :
    Except PyErr (Option String × List LogCall) :=
  if ¬ (identifier_type ∈ IDENTIFIERS) then .ok (Option.none, [])
  else if ¬ decider_present then .ok (Option.none, [])
  else if (make_ctx_err (get_ctx_with_set_identifier_fields ctx identifier identifier_type)).isSome
    then .ok (Option.none, [])
  else if choice.err.isSome then .ok (Option.none, [])
  else
    let event_context_fields := ctx.to_event_dict
    match emitEvents (send_expose_if_holdout true) event_context_fields choice.events with
    | .error e => .error e
    | .ok recs => .ok (choice.decision, recs)

/-- Python's `v.get(k)` on a dynamic value: only dicts have `.get`;
anything else raises `AttributeError`. -/
def pyAttrGet (v : PyVal) (k : String) : Except PyErr PyVal :=
  match v with
  | .dict d => .ok ((pyGet d k).getD .none)
  | _ => .error (.attributeError ("get"))

/-- Embeds `Decider.expose`.  `decider_present` models
`self._get_decider()` being non-`None` and `experiment_lookup` the reply
of `decider.get_experiment(experiment_name)` (`.error` when `err()` is
set, otherwise the `val()` dict).  The emitted records are returned; note
the body has no test on `variant_name` and reads no exposure-enabled
marking from the descriptor: once the lookup succeeds the logger is
always called. -/
def expose (ctx : DeciderContext) (decider_present : Bool)
    (experiment_lookup : Except String PyDict) (variant_name : String)
    (exposure_kwargs : PyDict) : Except PyErr (List LogCall) :=
  if ¬ decider_present then .ok []
  else
    match experiment_lookup with
    | .error _ => .ok []
    | .ok exp_dict =>
        let event_fields := pyMerge ctx.to_event_dict exposure_kwargs
        match pyIntCast (pyGetD exp_dict ("id") (.int 0)) with
        | .error e => .error e
        | .ok idv =>
            let variant_set := pyGetD exp_dict ("variant_set") (.dict [])
            match pyAttrGet variant_set ("bucket_val") with
            | .error e => .error e
            | .ok bv =>
                match pyAttrGet variant_set ("start_ts") with
                | .error e => .error e
                | .ok sts =>
                    match pyAttrGet variant_set ("stop_ts") with
                    | .error e => .error e
                    | .ok stp =>
                        let cfg : ExperimentConfig :=
                          { id := idv,
                            name := pyGetD exp_dict ("name") .none,
                            version := pyStrCast (pyGetD exp_dict ("version") .none),
                            bucket_val := bv,
                            start_ts := sts,
                            stop_ts := stp,
                            owner := pyGetD exp_dict ("owner") .none }
                        match logExposure cfg variant_name event_fields with
                        | .error e => .error e
                        | .ok rec => .ok [rec]

/-- Number of exposure records a call emitted (`0` when it raised). -/
def emissionCount : Except PyErr (List LogCall) → Nat
  | .ok recs => recs.length
  | .error _ => 0

/-- Stand-in for the engine handle stored on a `Decider` (the handle is a
black box; only its presence matters to the modelled guards). -/
structure RustDeciderHandle where
  choose_all_reply : List (Option String × List String)
deriving DecidableEq

/-- Embeds the `Decider` object as built by `Decider.__init__` (the span
and event logger are opaque and omitted). -/
structure Decider where
  decider_context : DeciderContext
  internal : Option RustDeciderHandle
  context_name : String

/-- The instance attributes `Decider.__init__` assigns, in order.  No
other method of the class assigns an attribute. -/
def deciderInstanceAttrs : List String :=
  ["_decider_context", "_internal", "_span", "_context_name", "_event_logger"]

/-- Embeds `Decider.get_all_variants_without_expose`.  Its first
statement reads `self._rs_decider`, an attribute that appears in
`deciderInstanceAttrs` nowhere — `__init__` stores the engine handle as
`self._internal` — so the attribute lookup raises `AttributeError` before
the guard, the bucketing loop or any holdout emission can run. -/
def get_all_variants_without_expose (_d : Decider) :
    Except PyErr (List PyDict × List LogCall) :=
  .error (.attributeError ("_rs_decider"))

/-- The engine's reply to one typed dynamic-config accessor
(`decider.get_bool` and friends): `err()` and `val()`. -/
structure DCResult where
  err : Option String
  val : PyVal

/-- Embeds `Decider._get_dynamic_config_value`.  `ctx_err` is the `err()`
of the black-box `make_ctx` over `self._decider_context.to_dict()`, `res`
the reply of the passed accessor (`None` reply included).  Note the
context-error branch returns `None`, not `default`. -/
def get_dynamic_config_value (ctx_err : Option String) (res : Option DCResult)
    (default : PyVal) : PyVal :=
  match ctx_err with
  | Option.some _ => .none
  | Option.none =>
      match res with
      | Option.none => default
      | Option.some r =>
          match r.err with
          | Option.some _ => default
          | Option.none => r.val

/-- Embeds `Decider.get_bool`: default when the engine handle is missing,
otherwise `_get_dynamic_config_value` with the engine's `get_bool`. -/
def get_bool (decider_present : Bool) (ctx_err : Option String) (res : Option DCResult)
    (default : PyVal) : PyVal :=
  if ¬ decider_present then default
  else get_dynamic_config_value ctx_err res default

/-- Embeds `Decider.get_int` (same wrapper shape as `get_bool`). -/
def get_int (decider_present : Bool) (ctx_err : Option String) (res : Option DCResult)
    (default : PyVal) : PyVal :=
  if ¬ decider_present then default
  else get_dynamic_config_value ctx_err res default

/-- Embeds `Decider.get_float` (same wrapper shape as `get_bool`). -/
def get_float (decider_present : Bool) (ctx_err : Option String) (res : Option DCResult)
    (default : PyVal) : PyVal :=
  if ¬ decider_present then default
  else get_dynamic_config_value ctx_err res default

/-- Embeds `Decider.get_string` (same wrapper shape as `get_bool`). -/
def get_string (decider_present : Bool) (ctx_err : Option String) (res : Option DCResult)
    (default : PyVal) : PyVal :=
  if ¬ decider_present then default
  else get_dynamic_config_value ctx_err res default

/-- Embeds `Decider.get_map` (same wrapper shape as `get_bool`; the
Python default is `None`). -/
def get_map (decider_present : Bool) (ctx_err : Option String) (res : Option DCResult)
    (default : PyVal) : PyVal :=
  if ¬ decider_present then default
  else get_dynamic_config_value ctx_err res default

/-- One entry of the engine's `get_all_values` reply: the per-config
`err()` and `value_dict()`.  A `None` or empty `value_dict` is modelled
by `[]` (both are falsy, so the code treats them alike). -/
structure ValueDecision where
  err : Option String
  value_dict : PyDict

/-- Embeds `Decider.get_all_dynamic_configs`.  `all_values` is the reply
of the engine's `get_all_values` (as (name, decision) pairs in iteration
order).  A missing handle, a context error or a top-level error yields
`[]`; an entry whose decision carries an error is logged and skipped
(`continue`), and an entry with a falsy `value_dict` is skipped too. -/
def get_all_dynamic_configs (decider_present : Bool) (ctx_err : Option String)
    (all_values : Except String (List (String × ValueDecision))) : List PyDict :=
  if ¬ decider_present then []
  else if ctx_err.isSome then []
  else
    match all_values with
    | .error _ => []
    | .ok decisions =>
        decisions.foldl
          (fun parsed_configs nd =>
            match nd.2.err with
            | Option.some _ => parsed_configs
            | Option.none =>
                if nd.2.value_dict.isEmpty then parsed_configs
                else parsed_configs ++ [nd.2.value_dict])
          []

theorem filterMap_length_all_some {α β : Type} (f : α → Option β) :
    ∀ l : List α, (∀ x ∈ l, (f x).isSome = true) → (l.filterMap f).length = l.length := by
  intro l
  induction l with
  | nil => intro _; rfl
  | cons x rest ih =>
    intro h
    obtain ⟨y, hy⟩ := Option.isSome_iff_exists.mp (h x (List.mem_cons_self x rest))
    have := ih (fun e he => h e (List.mem_cons_of_mem _ he))
    simp [List.filterMap_cons, hy, this]

theorem emitEvents_expose_eq (flds : PyDict) (hres : hasReservedKey flds = false) :
    ∀ evs : List String, (∀ ev ∈ evs, (parseRawEvent ev).isSome = true) →
      emitEvents (send_expose false) flds evs = .ok (evs.filterMap (recOfEvent flds)) := by
  intro evs
  induction evs with
  | nil => intro _; rfl
  | cons ev rest ih =>
    intro h
    obtain ⟨re, hre⟩ := Option.isSome_iff_exists.mp (h ev (List.mem_cons_self ev rest))
    have hrest := ih (fun e he => h e (List.mem_cons_of_mem _ he))
    have hsend : send_expose false ev flds
        = .ok (some { experiment := expConfigOfEvent re, variant := re.variant,
                      event_type := .expose, inputs := flds, kwargs := flds }) := by
      simp [send_expose, hre, logExposure, hres]
    simp [emitEvents, hsend, hrest, List.filterMap_cons, recOfEvent, hre]

theorem emitEvents_holdout_eq (flds : PyDict) (hres : hasReservedKey flds = false) :
    ∀ evs : List String, (∀ ev ∈ evs, (parseRawEvent ev).isSome = true) →
      emitEvents (send_expose_if_holdout false) flds evs
        = .ok ((evs.filter isHoldoutEvent).filterMap (recOfEvent flds)) := by
  intro evs
  induction evs with
  | nil => intro _; rfl
  | cons ev rest ih =>
    intro h
    obtain ⟨re, hre⟩ := Option.isSome_iff_exists.mp (h ev (List.mem_cons_self ev rest))
    have hrest := ih (fun e he => h e (List.mem_cons_of_mem _ he))
    by_cases hc : re.event_type = "2"
    · have hsend : send_expose_if_holdout false ev flds
          = .ok (some { experiment := expConfigOfEvent re, variant := re.variant,
                        event_type := .expose, inputs := flds, kwargs := flds }) := by
        simp [send_expose_if_holdout, hre, hc, logExposure, hres]
      have hold : isHoldoutEvent ev = true := by
        simp [isHoldoutEvent, hre, hc]
      simp [emitEvents, hsend, hrest, List.filter_cons, hold, List.filterMap_cons,
        recOfEvent, hre]
    · have hsend : send_expose_if_holdout false ev flds = .ok Option.none := by
        simp [send_expose_if_holdout, hre, hc]
      have hold : isHoldoutEvent ev = false := by
        simp [isHoldoutEvent, hre, hc]
      simp [emitEvents, hsend, hrest, List.filter_cons, hold]

/-- Safety of one event under `overwrite_identifier=True` emission: after
the bucketing-field overwrite, the fields collide with no reserved `log`
keyword (vacuously true for an event that does not parse). -/
def overwriteSafe (flds : PyDict) (ev : String) : Bool :=
  match parseRawEvent ev with
  | Option.some re => !hasReservedKey (pyUpdate flds re.bucket_val (.str re.bucketing_value))
  | Option.none => true

theorem emitEvents_overwrite_eq (flds : PyDict) :
    ∀ evs : List String, (∀ ev ∈ evs, (parseRawEvent ev).isSome = true) →
      (∀ ev ∈ evs, overwriteSafe flds ev = true) →
      emitEvents (send_expose true) flds evs
        = .ok (evs.filterMap (recOfEventOverwrite flds)) := by
  intro evs
  induction evs with
  | nil => intro _ _; rfl
  | cons ev rest ih =>
    intro h hs
    obtain ⟨re, hre⟩ := Option.isSome_iff_exists.mp (h ev (List.mem_cons_self ev rest))
    have hres : hasReservedKey (pyUpdate flds re.bucket_val (.str re.bucketing_value))
        = false := by
      have := hs ev (List.mem_cons_self ev rest)
      simpa [overwriteSafe, hre] using this
    have hrest := ih (fun e he => h e (List.mem_cons_of_mem _ he))
      (fun e he => hs e (List.mem_cons_of_mem _ he))
    have hsend : send_expose true ev flds
        = .ok (some { experiment := expConfigOfEvent re, variant := re.variant,
                      event_type := .expose,
                      inputs := pyUpdate flds re.bucket_val (.str re.bucketing_value),
                      kwargs := pyUpdate flds re.bucket_val (.str re.bucketing_value) }) := by
      simp [send_expose, hre, logExposure, hres]
    simp [emitEvents, hsend, hrest, List.filterMap_cons, recOfEventOverwrite, hre]

/-- C1: for every decision the engine returned with N raw event strings,
`get_variant` emits exactly one exposure per event — N records, classes
0, 1 and 2 alike, one per event in order, so no event is emitted twice —
while `get_variant_without_expose` emits exactly the records of the
sub-list of events whose classification code is `"2"` (holdout). -/
theorem get_variant_emission_counts (ctx : DeciderContext) (exposure_kwargs : PyDict)
    (d : Decision)
    (hwf : ∀ ev ∈ d.events, (parseRawEvent ev).isSome = true)
    (h1 : hasReservedKey (pyMerge ctx.to_event_dict exposure_kwargs) = false)
    (h2 : hasReservedKey ctx.to_event_dict = false) :
    get_variant ctx (some (.ok d)) exposure_kwargs
      = .ok (d.variant,
          d.events.filterMap (recOfEvent (pyMerge ctx.to_event_dict exposure_kwargs)))
    ∧ (d.events.filterMap (recOfEvent (pyMerge ctx.to_event_dict exposure_kwargs))).length
        = d.events.length
    ∧ get_variant_without_expose ctx (some (.ok d))
      = .ok (d.variant,
          (d.events.filter isHoldoutEvent).filterMap (recOfEvent ctx.to_event_dict)) := by
  refine ⟨?_, ?_, ?_⟩
  · simp [get_variant, emitEvents_expose_eq _ h1 d.events hwf]
  · refine filterMap_length_all_some _ _ (fun ev he => ?_)
    simp [recOfEvent, Option.isSome_map, hwf ev he]
  · simp [get_variant_without_expose, emitEvents_holdout_eq _ h2 d.events hwf]

def c1ctx : DeciderContext := {}

def c1ev0 : String :=
  "0::::1::::exp_1::::2::::variant_4::::t2_1234::::user_id::::37173982::::2147483648::::test_owner"

def c1ev1 : String :=
  "1::::6::::e1::::4::::e1treat::::t2_1234::::user_id::::0::::9668199193::::test"

def c1ev2 : String :=
  "2::::2::::hg::::5::::holdout::::t2_1234::::user_id::::0::::9668199193::::test"

def c1decision : Decision :=
  { variant := some "variant_4", events := [c1ev0, c1ev1, c1ev2] }

theorem get_variant_emission_counts_witness :
    (c1decision.events.filterMap (recOfEvent (pyMerge c1ctx.to_event_dict []))).length
      = c1decision.events.length :=
  (get_variant_emission_counts c1ctx [] c1decision (by decide) (by decide) (by decide)).2.1

theorem emitEvents_holdout_overwrite_eq (flds : PyDict) :
    ∀ evs : List String, (∀ ev ∈ evs, (parseRawEvent ev).isSome = true) →
      (∀ ev ∈ evs, overwriteSafe flds ev = true) →
      emitEvents (send_expose_if_holdout true) flds evs
        = .ok ((evs.filter isHoldoutEvent).filterMap (recOfEventOverwrite flds)) := by
  intro evs
  induction evs with
  | nil => intro _ _; rfl
  | cons ev rest ih =>
    intro h hs
    obtain ⟨re, hre⟩ := Option.isSome_iff_exists.mp (h ev (List.mem_cons_self ev rest))
    have hrest := ih (fun e he => h e (List.mem_cons_of_mem _ he))
      (fun e he => hs e (List.mem_cons_of_mem _ he))
    by_cases hc : re.event_type = "2"
    · have hres : hasReservedKey (pyUpdate flds re.bucket_val (.str re.bucketing_value))
          = false := by
        have := hs ev (List.mem_cons_self ev rest)
        simpa [overwriteSafe, hre] using this
      have hsend : send_expose_if_holdout true ev flds
          = .ok (some { experiment := expConfigOfEvent re, variant := re.variant,
                        event_type := .expose,
                        inputs := pyUpdate flds re.bucket_val (.str re.bucketing_value),
                        kwargs := pyUpdate flds re.bucket_val (.str re.bucketing_value) }) := by
        simp [send_expose_if_holdout, hre, hc, logExposure, hres]
      have hold : isHoldoutEvent ev = true := by
        simp [isHoldoutEvent, hre, hc]
      simp [emitEvents, hsend, hrest, List.filter_cons, hold, List.filterMap_cons,
        recOfEventOverwrite, hre]
    · have hsend : send_expose_if_holdout true ev flds = .ok Option.none := by
        simp [send_expose_if_holdout, hre, hc]
      have hold : isHoldoutEvent ev = false := by
        simp [isHoldoutEvent, hre, hc]
      simp [emitEvents, hsend, hrest, List.filter_cons, hold]

theorem recOfEventOverwrite_reports (flds : PyDict) (l : List String) :
    ∀ rec ∈ l.filterMap (recOfEventOverwrite flds),
      ∃ ev ∈ l, ∃ re, parseRawEvent ev = some re ∧
        pyGet rec.kwargs re.bucket_val = some (.str re.bucketing_value) ∧
        pyGet rec.inputs re.bucket_val = some (.str re.bucketing_value) := by
  intro rec hmem
  rw [List.mem_filterMap] at hmem
  obtain ⟨ev, hev, heq⟩ := hmem
  rw [recOfEventOverwrite, Option.map_eq_some'] at heq
  obtain ⟨re, hre, hrec⟩ := heq
  refine ⟨ev, hev, re, hre, ?_, ?_⟩
  · rw [← hrec]
    exact pyGet_update_self _ _ _
  · rw [← hrec]
    exact pyGet_update_self _ _ _

/-- C4: in both identifier-targeted calls, every emitted exposure record
reports, under the experiment's bucketing-field name, the literal
bucketing value carried in the Raw Decision Event (both at top level and
in the `inputs` sub-object) — not the caller's supplied `identifier`.
`get_variant_for_identifier` emits such a record for every event;
`get_variant_for_identifier_without_expose` for exactly the class-2
(holdout) events, again with the event's own bucketing value.  The
caller's `DeciderContext` is untouched by construction: the identifier
write lands on the fresh dict built by `to_dict`
(`get_ctx_with_set_identifier_fields`), and the event payload is rebuilt
from the unchanged snapshot via `to_event_dict`. -/
theorem get_variant_for_identifier_reports_event_bucketing_value
    (ctx : DeciderContext) (identifier identifier_type : String)
    (make_ctx_err : PyDict → Option String) (choice : IdChoice) (kwargs : PyDict)
    (hid : identifier_type ∈ IDENTIFIERS)
    (hctx : make_ctx_err (get_ctx_with_set_identifier_fields ctx identifier identifier_type)
      = Option.none)
    (herr : choice.err = Option.none)
    (hwf : ∀ ev ∈ choice.events, (parseRawEvent ev).isSome = true)
    (hs : ∀ ev ∈ choice.events, overwriteSafe (pyMerge ctx.to_event_dict kwargs) ev = true)
    (hs2 : ∀ ev ∈ choice.events, overwriteSafe ctx.to_event_dict ev = true) :
    get_variant_for_identifier ctx identifier identifier_type true make_ctx_err choice kwargs
      = .ok (choice.decision,
          choice.events.filterMap (recOfEventOverwrite (pyMerge ctx.to_event_dict kwargs)))
    ∧ (∀ rec ∈ choice.events.filterMap
        (recOfEventOverwrite (pyMerge ctx.to_event_dict kwargs)),
        ∃ ev ∈ choice.events, ∃ re, parseRawEvent ev = some re ∧
          pyGet rec.kwargs re.bucket_val = some (.str re.bucketing_value) ∧
          pyGet rec.inputs re.bucket_val = some (.str re.bucketing_value))
    ∧ get_variant_for_identifier_without_expose ctx identifier identifier_type true
        make_ctx_err choice
      = .ok (choice.decision,
          (choice.events.filter isHoldoutEvent).filterMap
            (recOfEventOverwrite ctx.to_event_dict))
    ∧ (∀ rec ∈ (choice.events.filter isHoldoutEvent).filterMap
        (recOfEventOverwrite ctx.to_event_dict),
        ∃ ev ∈ choice.events, ∃ re, parseRawEvent ev = some re ∧
          pyGet rec.kwargs re.bucket_val = some (.str re.bucketing_value) ∧
          pyGet rec.inputs re.bucket_val = some (.str re.bucketing_value)) := by
  refine ⟨?_, ?_, ?_, ?_⟩
  · simp [get_variant_for_identifier, hid, hctx, herr,
      emitEvents_overwrite_eq _ choice.events hwf hs]
  · exact recOfEventOverwrite_reports _ _
  · simp [get_variant_for_identifier_without_expose, hid, hctx, herr,
      emitEvents_holdout_overwrite_eq _ choice.events hwf hs2]
  · intro rec hmem
    obtain ⟨ev, hev, hrest⟩ :=
      recOfEventOverwrite_reports ctx.to_event_dict
        (choice.events.filter isHoldoutEvent) rec hmem
    exact ⟨ev, List.mem_of_mem_filter hev, hrest⟩

def c4ctx : DeciderContext := { user_id := .str "t2_1234" }

def c4ev : String :=
  "0::::1::::exp_1::::2::::variant_3::::www.x.com::::canonical_url::::0::::1::::owner"

/-- A class-2 (holdout) raw event of the same decision. -/
def c4ev2 : String :=
  "2::::9::::hg::::3::::holdout::::www.x.com::::canonical_url::::0::::1::::owner"

def c4choice : IdChoice :=
  { err := Option.none, decision := some "variant_3", events := [c4ev, c4ev2] }

theorem get_variant_for_identifier_reports_event_bucketing_value_witness :
    (get_variant_for_identifier c4ctx "https://www.x.com/a" "canonical_url" true
        (fun _ => Option.none) c4choice []
      = .ok (some "variant_3",
          c4choice.events.filterMap (recOfEventOverwrite (pyMerge c4ctx.to_event_dict []))))
    ∧ (get_variant_for_identifier_without_expose c4ctx "https://www.x.com/a" "canonical_url"
        true (fun _ => Option.none) c4choice
      = .ok (some "variant_3",
          (c4choice.events.filter isHoldoutEvent).filterMap
            (recOfEventOverwrite c4ctx.to_event_dict))) :=
  ⟨(get_variant_for_identifier_reports_event_bucketing_value c4ctx "https://www.x.com/a"
      "canonical_url" (fun _ => Option.none) c4choice [] (by decide) rfl rfl
      (by decide) (by decide) (by decide)).1,
   (get_variant_for_identifier_reports_event_bucketing_value c4ctx "https://www.x.com/a"
      "canonical_url" (fun _ => Option.none) c4choice [] (by decide) rfl rfl
      (by decide) (by decide) (by decide)).2.2.1⟩

def c2ctx : DeciderContext := {}

/-- A descriptor dict whose experiment marks exposure emission as
disabled (`emit_event: false`). -/
def c2exp_dict : PyDict :=
  [("id", .int 1),
   ("name", .str "exp_1"),
   ("version", .str "2"),
   ("emit_event", .bool false),
   ("variant_set", .dict
      [("bucket_val", .str "user_id"),
       ("start_ts", .int 37173982),
       ("stop_ts", .int 2147483648)]),
   ("owner", .str "test_owner")]

/-- C2 counterexample: calling `expose` with an empty `variant_name`
against a descriptor that marks exposure emission disabled still emits
exactly one exposure event — the body of `Decider.expose` checks neither
condition once the descriptor lookup succeeds. -/
theorem expose_emits_despite_disabled_descriptor_and_empty_variant :
    emissionCount (expose c2ctx true (.ok c2exp_dict) "" []) = 1 := by
  decide

/-- C2 amended: `expose` is a no-op exactly when the engine handle is
missing or the descriptor lookup errors; once the lookup succeeds it
always emits one exposure record carrying `variant_name` verbatim —
empty or not — regardless of any exposure-disabled marking in the
descriptor (which the body never reads). -/
theorem expose_emits_whenever_lookup_succeeds (ctx : DeciderContext) (variant_name : String)
    (kwargs : PyDict) (exp_dict : PyDict) (err_msg : String) (n : Int) (vsd : PyDict)
    (hres : hasReservedKey (pyMerge ctx.to_event_dict kwargs) = false)
    (hid : pyGetD exp_dict ("id") (.int 0) = .int n)
    (hvs : pyGetD exp_dict ("variant_set") (.dict []) = .dict vsd) :
    expose ctx false (.ok exp_dict) variant_name kwargs = .ok []
    ∧ expose ctx true (.error err_msg) variant_name kwargs = .ok []
    ∧ expose ctx true (.ok exp_dict) variant_name kwargs
        = .ok [{ experiment :=
                   { id := n,
                     name := pyGetD exp_dict ("name") .none,
                     version := pyStrCast (pyGetD exp_dict ("version") .none),
                     bucket_val := (pyGet vsd ("bucket_val")).getD .none,
                     start_ts := (pyGet vsd ("start_ts")).getD .none,
                     stop_ts := (pyGet vsd ("stop_ts")).getD .none,
                     owner := pyGetD exp_dict ("owner") .none },
                 variant := variant_name,
                 event_type := .expose,
                 inputs := pyMerge ctx.to_event_dict kwargs,
                 kwargs := pyMerge ctx.to_event_dict kwargs }] := by
  refine ⟨rfl, rfl, ?_⟩
  simp [expose, hid, hvs, pyIntCast, pyAttrGet, logExposure, hres]

theorem expose_emits_whenever_lookup_succeeds_witness :
    expose c2ctx true (.ok c2exp_dict) "" [] = .ok
      [{ experiment :=
           { id := 1,
             name := pyGetD c2exp_dict ("name") .none,
             version := pyStrCast (pyGetD c2exp_dict ("version") .none),
             bucket_val := (pyGet
               [("bucket_val", PyVal.str "user_id"),
                ("start_ts", PyVal.int 37173982),
                ("stop_ts", PyVal.int 2147483648)] ("bucket_val")).getD .none,
             start_ts := (pyGet
               [("bucket_val", PyVal.str "user_id"),
                ("start_ts", PyVal.int 37173982),
                ("stop_ts", PyVal.int 2147483648)] ("start_ts")).getD .none,
             stop_ts := (pyGet
               [("bucket_val", PyVal.str "user_id"),
                ("start_ts", PyVal.int 37173982),
                ("stop_ts", PyVal.int 2147483648)] ("stop_ts")).getD .none,
             owner := pyGetD c2exp_dict ("owner") .none },
         variant := "",
         event_type := .expose,
         inputs := pyMerge c2ctx.to_event_dict [],
         kwargs := pyMerge c2ctx.to_event_dict [] }] :=
  (expose_emits_whenever_lookup_succeeds c2ctx "" [] c2exp_dict "e" 1
    [("bucket_val", PyVal.str "user_id"),
     ("start_ts", PyVal.int 37173982),
     ("stop_ts", PyVal.int 2147483648)]
    (by decide) rfl rfl).2.2

def c3ctx : DeciderContext := { user_id := .str "t2_1234" }

/-- C3 counterexample: building the identifier-targeted flat context for
`identifier_type="device_id"` leaves the snapshot's `user_id` value in
place — it is not reset to `null` before the override is applied. -/
theorem set_identifier_keeps_stale_user_id :
    pyGet (get_ctx_with_set_identifier_fields c3ctx "abc" "device_id") "user_id"
        = some (PyVal.str "t2_1234")
    ∧ some (PyVal.str "t2_1234") ≠ some PyVal.none := by
  refine ⟨rfl, ?_⟩
  intro h
  injection h with h2
  exact PyVal.noConfusion h2

/-- C3 amended: `_get_ctx_with_set_identifier` overrides exactly the one
requested identifier field in the flat map; every other key — the two
remaining recognized bucketing identifiers included — keeps the value it
has in `to_dict` of the snapshot (no reset to `null` happens). -/
theorem set_identifier_overrides_only_requested_field (ctx : DeciderContext)
    (identifier identifier_type k : String) (hk : k ≠ identifier_type) :
    pyGet (get_ctx_with_set_identifier_fields ctx identifier identifier_type) k
        = pyGet ctx.to_dict k
    ∧ pyGet (get_ctx_with_set_identifier_fields ctx identifier identifier_type)
        identifier_type = some (.str identifier) := by
  constructor
  · exact pyGet_update_ne _ _ _ _ (fun h => hk h.symm)
  · exact pyGet_update_self _ _ _

theorem set_identifier_overrides_only_requested_field_witness :
    pyGet (get_ctx_with_set_identifier_fields c3ctx "abc" "device_id") "user_id"
        = pyGet c3ctx.to_dict "user_id" :=
  (set_identifier_overrides_only_requested_field c3ctx "abc" "device_id" "user_id"
    (by decide)).1

/-- C5: the safety contract fails in `get_all_variants_without_expose`:
the attribute `_rs_decider` it dereferences first is assigned by no
method (`__init__` stores the handle as `_internal`), so every call —
engine present or not — raises `AttributeError` to the caller instead of
returning a default. -/
theorem get_all_variants_without_expose_always_raises :
    ("_rs_decider" ∈ deciderInstanceAttrs → False)
    ∧ ∀ d : Decider,
        get_all_variants_without_expose d = .error (.attributeError ("_rs_decider")) :=
  ⟨by decide, fun _ => rfl⟩

/-- A `Decider` whose engine handle would return an experiment with a
`None` variant and a class-2 (holdout) raw event. -/
def c9decider : Decider :=
  { decider_context := {},
    internal := some
      { choose_all_reply :=
          [(Option.none,
            ["2::::2::::hg::::5::::holdout::::t2_1234::::user_id::::0::::9668199193::::test"])] },
    context_name := "test" }

/-- C9: on a bulk decision holding an experiment with an empty variant
and a class-2 event, `get_all_variants_without_expose` neither filters
the experiment out of a result list nor fires the holdout exposure: it
raises `AttributeError` on the never-assigned `_rs_decider` attribute
before reaching the loop. -/
theorem get_all_variants_without_expose_raises_before_filtering :
    get_all_variants_without_expose c9decider = .error (.attributeError ("_rs_decider")) :=
  rfl

def c6ctx : DeciderContext := {}

def c6event : String :=
  "0::::1::::exp_1::::2::::variant_4::::t2_1234::::user_id::::37173982::::2147483648::::test_owner"

def c6decision : Decision := { variant := some "variant_4", events := [c6event] }

/-- C6 counterexample: an `exposure_kwargs` dict containing the reserved
key `"variant"` does not produce a successful emission with the
protocol-derived value retained — the `log` call raises `TypeError`
(duplicate keyword argument), which propagates out of `get_variant`. -/
theorem get_variant_reserved_kwarg_raises :
    get_variant c6ctx (some (.ok c6decision)) [("variant", .str "boom")]
      = .error (.typeError ("log() got multiple values for a keyword argument")) :=
  rfl

/-- C6 amended: kwargs indeed never overwrite the reserved `log` fields,
but not by being ignored: a kwargs key among `experiment`, `variant`,
`span`, `event_type`, `inputs` makes the logger call raise `TypeError`
and the whole call fail.  When the merged fields avoid the reserved
names, the emission succeeds, the record's `experiment`, `variant` and
`event_type` are protocol-derived from the event, and the kwargs appear
only merged into the top-level fields and the `inputs` sub-object. -/
theorem get_variant_kwargs_merge_behavior (ctx : DeciderContext) (kwargs : PyDict)
    (v : Option String) (ev : String) (re : RawEvent)
    (hre : parseRawEvent ev = some re) :
    (hasReservedKey (pyMerge ctx.to_event_dict kwargs) = true →
      get_variant ctx (some (.ok { variant := v, events := [ev] })) kwargs
        = .error (.typeError ("log() got multiple values for a keyword argument")))
    ∧ (hasReservedKey (pyMerge ctx.to_event_dict kwargs) = false →
      get_variant ctx (some (.ok { variant := v, events := [ev] })) kwargs
        = .ok (v, [{ experiment := expConfigOfEvent re, variant := re.variant,
                     event_type := .expose,
                     inputs := pyMerge ctx.to_event_dict kwargs,
                     kwargs := pyMerge ctx.to_event_dict kwargs }])) := by
  constructor
  · intro hres
    simp [get_variant, emitEvents, send_expose, hre, logExposure, hres]
  · intro hres
    simp [get_variant, emitEvents, send_expose, hre, logExposure, hres]

theorem get_variant_kwargs_merge_behavior_witness :
    get_variant c6ctx (some (.ok { variant := some "variant_4", events := [c6event] }))
        [("foo", .str "test_1")]
      = .ok (some "variant_4",
          [{ experiment := expConfigOfEvent
               { event_type := "0", exp_id := "1", name := "exp_1", version := "2",
                 variant := "variant_4", bucketing_value := "t2_1234",
                 bucket_val := "user_id", start_ts := "37173982",
                 stop_ts := "2147483648", owner := "test_owner" },
             variant := "variant_4", event_type := .expose,
             inputs := pyMerge c6ctx.to_event_dict [("foo", .str "test_1")],
             kwargs := pyMerge c6ctx.to_event_dict [("foo", .str "test_1")] }]) :=
  (get_variant_kwargs_merge_behavior c6ctx [("foo", .str "test_1")] (some "variant_4")
    c6event _ rfl).2 (by decide)

/-- C7 counterexample: with the caller-supplied default `True`, a
context-construction error makes `get_bool` return `None` — not the
default. -/
theorem get_bool_ctx_error_returns_none_not_default :
    get_bool true (some "make_ctx failed") Option.none (.bool true) = PyVal.none
    ∧ PyVal.none ≠ PyVal.bool true :=
  ⟨rfl, fun h => PyVal.noConfusion h⟩

/-- C7 amended: each typed accessor returns the caller-supplied default
when the engine handle is missing, the engine reply is `None`, or the
reply carries an error (not-found and type-mismatch report through this
error channel), and never raises; but on a context-construction error it
returns `None` instead of the default. -/
theorem typed_accessors_default_except_ctx_error :
    ∀ (dflt : PyVal) (res : Option DCResult) (e : String) (v : PyVal),
    (get_bool false Option.none res dflt = dflt
     ∧ get_bool true Option.none Option.none dflt = dflt
     ∧ get_bool true Option.none (some { err := some e, val := v }) dflt = dflt
     ∧ get_bool true (some e) res dflt = PyVal.none)
    ∧ (get_int false Option.none res dflt = dflt
     ∧ get_int true Option.none Option.none dflt = dflt
     ∧ get_int true Option.none (some { err := some e, val := v }) dflt = dflt
     ∧ get_int true (some e) res dflt = PyVal.none)
    ∧ (get_float false Option.none res dflt = dflt
     ∧ get_float true Option.none Option.none dflt = dflt
     ∧ get_float true Option.none (some { err := some e, val := v }) dflt = dflt
     ∧ get_float true (some e) res dflt = PyVal.none)
    ∧ (get_string false Option.none res dflt = dflt
     ∧ get_string true Option.none Option.none dflt = dflt
     ∧ get_string true Option.none (some { err := some e, val := v }) dflt = dflt
     ∧ get_string true (some e) res dflt = PyVal.none)
    ∧ (get_map false Option.none res dflt = dflt
     ∧ get_map true Option.none Option.none dflt = dflt
     ∧ get_map true Option.none (some { err := some e, val := v }) dflt = dflt
     ∧ get_map true (some e) res dflt = PyVal.none) :=
  fun _ _ _ _ =>
    ⟨⟨rfl, rfl, rfl, rfl⟩, ⟨rfl, rfl, rfl, rfl⟩, ⟨rfl, rfl, rfl, rfl⟩,
     ⟨rfl, rfl, rfl, rfl⟩, ⟨rfl, rfl, rfl, rfl⟩⟩

/-- The per-entry selection `get_all_dynamic_configs` applies: drop an
entry whose decision errored or whose value dict is falsy, keep the
value dict otherwise. -/
def dcKeep (nd : String × ValueDecision) : Option PyDict :=
  match nd.2.err with
  | Option.some _ => Option.none
  | Option.none =>
      if nd.2.value_dict.isEmpty then Option.none else some nd.2.value_dict

theorem get_all_dynamic_configs_foldl (l : List (String × ValueDecision)) :
    ∀ acc : List PyDict,
      l.foldl (fun parsed_configs nd =>
        match nd.2.err with
        | Option.some _ => parsed_configs
        | Option.none =>
            if nd.2.value_dict.isEmpty then parsed_configs
            else parsed_configs ++ [nd.2.value_dict]) acc
      = acc ++ l.filterMap dcKeep := by
  induction l with
  | nil => intro acc; simp
  | cons nd rest ih =>
    intro acc
    cases h : nd.2.err with
    | some e => simp [List.foldl_cons, h, ih, List.filterMap_cons, dcKeep]
    | none =>
      by_cases hv : nd.2.value_dict.isEmpty
      · simp [List.foldl_cons, h, hv, ih, List.filterMap_cons, dcKeep]
      · simp [List.foldl_cons, h, hv, ih, List.filterMap_cons, dcKeep]

/-- An engine reply whose single entry errored during evaluation; its
value dict even carries the type-appropriate zero value. -/
def c8decisions : List (String × ValueDecision) :=
  [("dc_bad",
    { err := some "parse error",
      value_dict := [("name", .str "dc_bad"), ("value", .bool false),
                     ("type", .str "boolean")] })]

/-- C8 counterexample: the errored entry is omitted from the result of
`get_all_dynamic_configs` — the result is empty, the entry is not
included with a zero value. -/
theorem get_all_dynamic_configs_drops_errored_entry :
    get_all_dynamic_configs true Option.none (.ok c8decisions) = [] :=
  rfl

/-- C8 amended: `get_all_dynamic_configs` returns exactly the value
dicts of the entries whose decision carries no error and a non-empty
value dict; an entry whose evaluation errors out at the decision level
is logged and skipped (`continue`), not included with a zero value (any
zero-value defaulting for malformed stored values happens inside the
engine's value dicts, upstream of this function). -/
theorem get_all_dynamic_configs_keeps_exactly_unerrored :
    ∀ decisions : List (String × ValueDecision),
      get_all_dynamic_configs true Option.none (.ok decisions)
        = decisions.filterMap dcKeep := by
  intro decisions
  simp [get_all_dynamic_configs, get_all_dynamic_configs_foldl]

/-- C10: in the flat map of `to_dict` the extracted-fields bag is merged
last, so any of its keys — canonical attribute names such as `user_id`
included — shadows the canonical attribute's value; the bag is also
present in full under `other_fields` (whenever the bag does not itself
bind that key, which would shadow it too). -/
theorem to_dict_extracted_fields_shadow (ctx : DeciderContext) (k : String) (v : PyVal)
    (hk : pyGet ctx.ef k = some v) :
    pyGet ctx.to_dict k = some v
    ∧ (pyGet ctx.ef ("other_fields") = Option.none →
        pyGet ctx.to_dict ("other_fields") = some (.dict ctx.ef)) := by
  constructor
  · rw [DeciderContext.to_dict, pyGet_append, hk]
    rfl
  · intro hof
    rw [DeciderContext.to_dict, pyGet_append, hof]
    simp [pyGet]

def c10ctx : DeciderContext :=
  { user_id := .str "t2_orig",
    extracted_fields := some [("user_id", .str "t2_shadow")] }

theorem to_dict_extracted_fields_shadow_witness :
    pyGet c10ctx.to_dict "user_id" = some (PyVal.str "t2_shadow") :=
  (to_dict_extracted_fields_shadow c10ctx "user_id" (PyVal.str "t2_shadow") rfl).1
